import Mathlib

/-!
Verification of the paperless-gpt OCR core: a shallow embedding of the
vision-LLM OCR provider (`ocr` package: `LLMProvider.ProcessImage`,
`GoogleAIProvider.GenerateContent`), the OCR-provider startup wiring in
`main.go`, and the web app's per-page re-OCR handler
(`ExperimentalOCR.tsx: handleReOcrPage`), together with theorems settling
the specification's claims about them.

Go byte slices are embedded as `List Nat` (each element a byte value),
Go `int` as `Int`, `*float64` as `Option Rat` (the temperature value is
only ever tested for presence and passed through, never computed with),
`*int` as `Option Int`, and fallible calls as `Except String`.
External collaborators that are not part of this repository
(`image.Decode`, the network call of the model backend, and
`llms.CountTokens` of langchaingo) are taken as explicit function
parameters of the embedded operations.
-/

namespace PaperlessGPT

/-! ## Base64 (Go `encoding/base64` StdEncoding over byte lists) -/

/-- The standard base64 alphabet used by Go's `base64.StdEncoding`. -/
def base64Alphabet : List Char :=
  "ABCDEFGHIJKLMNOPQRSTUVWXYZabcdefghijklmnopqrstuvwxyz0123456789+/".toList

/-- Character of the standard base64 alphabet at a 6-bit index. -/
def base64Char (n : Nat) : Char :=
  base64Alphabet.getD (n % 64) 'A'

/-- Go `base64.StdEncoding.EncodeToString`: encode a byte list in groups of
three bytes into four characters, padding the final group with `=`. -/
def base64Encode : List Nat → String
  | [] => ""
  | [b0] =>
    String.mk [base64Char (b0 / 4), base64Char (b0 % 4 * 16), '=', '=']
  | [b0, b1] =>
    String.mk [base64Char (b0 / 4), base64Char (b0 % 4 * 16 + b1 / 16),
               base64Char (b1 % 16 * 4), '=']
  | b0 :: b1 :: b2 :: rest =>
    String.mk [base64Char (b0 / 4), base64Char (b0 % 4 * 16 + b1 / 16),
               base64Char (b1 % 16 * 4 + b2 / 64), base64Char (b2 % 64)]
      ++ base64Encode rest

/-! ## langchaingo message model (`llms` package), restricted to the
constructors this repository uses or inspects -/

/-- `llms.ContentPart`: the kinds of content parts of a chat message. -/
inductive ContentPart where
  | text (s : String)
  | imageURL (url : String)
  | binary (mimeType : String) (data : List Nat)
  | toolCall
  | toolCallResponse
deriving DecidableEq, Repr

/-- `llms.ChatMessageType`; the OCR path only ever sends `human`. -/
inductive ChatMessageType where
  | human
  | ai
  | system
  | generic
  | function
  | tool
deriving DecidableEq, Repr

/-- `llms.MessageContent`. -/
structure MessageContent where
  role : ChatMessageType
  parts : List ContentPart
deriving DecidableEq, Repr

/-- `llms.CallOption` values that `ProcessImage` can attach:
`WithMaxTokens`, `WithTemperature`, `WithTopK`. -/
inductive CallOption where
  | withMaxTokens (n : Int)
  | withTemperature (t : Rat)
  | withTopK (k : Int)
deriving DecidableEq, Repr

/-- `llms.ContentChoice`, restricted to the fields this repository reads:
the text content, and the `TotalTokens` entry of `GenerationInfo`
(`some v` when the key is present and holds a Go `int`, `none` otherwise;
the rest of the `GenerationInfo` map is carried opaquely and never read). -/
structure ContentChoice where
  content : String
  totalTokensInfo : Option Int
deriving DecidableEq, Repr

/-- `llms.ContentResponse`. -/
structure ContentResponse where
  choices : List ContentChoice
deriving DecidableEq, Repr

/-! ## The vision-LLM OCR provider (`ocr/llm_provider.go`) -/

/-- Go `strings.ToLower`, as character-wise case folding over the string's
characters (the provider names it is applied to are ASCII). -/
def lowerString (s : String) : String :=
  String.mk (s.toList.map Char.toLower)

/-- The `LLMProvider` struct fields that `ProcessImage` reads (the
`llms.Model` client itself is passed to the embedded `processImage` as a
function parameter). -/
structure LLMProvider where
  provider : String
  model : String
  prompt : String
  ollamaOcrMaxTokensPerPage : Int
  ollamaOcrTemperature : Option Rat
  ollamaOcrTopK : Option Int
deriving DecidableEq, Repr

/-- Decoded image dimensions, all `ProcessImage` uses of `image.Decode`'s
result (logging width and height). -/
structure ImageInfo where
  width : Int
  height : Int
deriving DecidableEq, Repr

/-- `OCRResult`, restricted to the fields the embedded code writes:
`Text`, the `provider`/`model` metadata entries, `OcrLimitHit`, and the
`TotalTokens` entry of the carried `GenerationInfo`. -/
structure OCRResult where
  text : String
  metadata : List (String × String)
  ocrLimitHit : Bool
  generationInfoTotalTokens : Option Int
deriving DecidableEq, Repr

/-- Content parts of the OCR request (`ProcessImage` lines 255-270):
non-OpenAI providers get the raw bytes as a binary part, OpenAI gets a
base64 data URI; both get the prompt as a text part. -/
def buildParts (p : LLMProvider) (imageContent : List Nat) : List ContentPart :=
  if lowerString p.provider ≠ "openai" then
    [ContentPart.binary "image/jpeg" imageContent, ContentPart.text p.prompt]
  else
    [ContentPart.imageURL ("data:image/jpeg;base64," ++ base64Encode imageContent),
     ContentPart.text p.prompt]

/-- The single-turn message list `ProcessImage` sends to the model
(lines 288-293). -/
def requestMessages (p : LLMProvider) (imageContent : List Nat) : List MessageContent :=
  [{ role := ChatMessageType.human, parts := buildParts p imageContent }]

/-- Call options attached by `ProcessImage` (lines 272-284): Ollama-specific
options, appended only when the provider is Ollama and each one only when
configured. -/
def buildCallOpts (p : LLMProvider) : List CallOption :=
  if lowerString p.provider = "ollama" then
    (if p.ollamaOcrMaxTokensPerPage > 0 then
      [CallOption.withMaxTokens p.ollamaOcrMaxTokensPerPage] else [])
    ++ (match p.ollamaOcrTemperature with
        | some t => [CallOption.withTemperature t]
        | none => [])
    ++ (match p.ollamaOcrTopK with
        | some k => [CallOption.withTopK k]
        | none => [])
  else []

/-- The token count `ProcessImage` ends up using for limit detection
(lines 301-314): `tokenCount` starts at `-1`, is replaced by the
`TotalTokens` generation-info entry when present as an `int`, and, while
still negative, by `llms.CountTokens model text`. -/
def ocrTokenCount (countTokens : String → String → Int) (p : LLMProvider)
    (choice : ContentChoice) : Int :=
  let tokenCount : Int :=
    match choice.totalTokensInfo with
    | some v => v
    | none => -1
  if tokenCount < 0 then countTokens p.model choice.content else tokenCount

/-- The `OcrLimitHit` flag computed by `ProcessImage` (lines 300-318):
only the Ollama provider with a positive max-tokens bound performs token
counting, and the flag is set when the count reaches the bound. -/
def ocrLimitHitFlag (countTokens : String → String → Int) (p : LLMProvider)
    (choice : ContentChoice) : Bool :=
  if lowerString p.provider = "ollama" ∧ p.ollamaOcrMaxTokensPerPage > 0 then
    decide (ocrTokenCount countTokens p choice ≥ p.ollamaOcrMaxTokensPerPage)
  else
    false

/-- `LLMProvider.ProcessImage` (lines 233-332). `decode` embeds
`image.Decode`, `generateContent` the model client's network call, and
`countTokens` langchaingo's `llms.CountTokens`. The second component of
the result counts how many model calls were issued (the Go body issues
exactly one, and none when image decoding fails). The Go code indexes
`completion.Choices[0]` unconditionally; an empty choice list is embedded
as the corresponding runtime failure. -/
def processImage (decode : List Nat → Except String ImageInfo)
    (generateContent : List MessageContent → List CallOption → Except String ContentResponse)
    (countTokens : String → String → Int)
    (p : LLMProvider) (imageContent : List Nat) :
    Except String OCRResult × Nat :=
  match decode imageContent with
  | Except.error e => (Except.error ("error decoding image: " ++ e), 0)
  | Except.ok _ =>
    match generateContent (requestMessages p imageContent) (buildCallOpts p) with
    | Except.error e => (Except.error ("error getting response from LLM: " ++ e), 1)
    | Except.ok completion =>
      match completion.choices with
      | [] => (Except.error "runtime error: index out of range in Choices", 1)
      | choice :: _ =>
        (Except.ok
          { text := choice.content
            metadata := [("provider", p.provider), ("model", p.model)]
            ocrLimitHit := ocrLimitHitFlag countTokens p choice
            generationInfoTotalTokens := choice.totalTokensInfo }, 1)

/-! ## GoogleAI provider (`ocr/googleai_provider.go`) -/

/-- `genai.Blob`. -/
structure GenaiBlob where
  mimeType : String
  data : List Nat
deriving DecidableEq, Repr

/-- `genai.Part`, restricted to the fields this repository writes or reads
(`Text` and `InlineData`). A Go zero `Text` is the empty string and a nil
`InlineData` pointer is `none`. -/
structure GenaiPart where
  text : String
  inlineData : Option GenaiBlob
deriving DecidableEq, Repr

/-- `genai.Content`, restricted to `Parts` (a slice of part pointers, each
possibly nil). -/
structure GenaiContent where
  parts : List (Option GenaiPart)
deriving DecidableEq, Repr

/-- `genai.Candidate`, restricted to `Content` (a possibly-nil pointer). -/
structure GenaiCandidate where
  content : Option GenaiContent
deriving DecidableEq, Repr

/-- `genai.GenerateContentResponse`, restricted to `Candidates` (a slice of
candidate pointers, each possibly nil). -/
structure GenaiResponse where
  candidates : List (Option GenaiCandidate)
deriving DecidableEq, Repr

/-- The conversion loop of `GoogleAIProvider.GenerateContent`
(lines 87-102): text parts become text `genai.Part`s, binary parts become
inline-data `genai.Part`s, and the first part of any other kind aborts
with an error. -/
def convertParts : List ContentPart → Except String (List GenaiPart)
  | [] => Except.ok []
  | ContentPart.text s :: rest =>
    (convertParts rest).map (fun ps => { text := s, inlineData := none } :: ps)
  | ContentPart.binary mime data :: rest =>
    (convertParts rest).map
      (fun ps => { text := "", inlineData := some { mimeType := mime, data := data } } :: ps)
  | _ :: _ => Except.error "unsupported content part type for GoogleAIProvider"

/-- Whether `GoogleAIProvider.GenerateContent` can convert a content part
(text and binary are supported, everything else hits the default case). -/
def supportedPart : ContentPart → Bool
  | ContentPart.text _ => true
  | ContentPart.binary _ _ => true
  | _ => false

/-- The content extraction of `GoogleAIProvider.GenerateContent`
(lines 129-138): the first candidate's first part's text, when every link
of that chain is present and the text is nonempty; otherwise `""`. -/
def extractFirstCandidateText (resp : GenaiResponse) : String :=
  match resp.candidates with
  | some cand :: _ =>
    match cand.content with
    | some c =>
      match c.parts with
      | some part :: _ => if part.text ≠ "" then part.text else ""
      | _ => ""
    | none => ""
  | _ => ""

/-- `GoogleAIProvider.GenerateContent` (lines 81-147). `callModel` embeds
the `client.Models.GenerateContent` network call; its `Option GenaiResponse`
result embeds the possibly-nil response pointer. The thinking-budget
generation config does not affect the response handling and is omitted.
Call options are accepted and ignored, exactly as in the Go method. -/
def googleGenerateContent
    (callModel : List GenaiContent → Except String (Option GenaiResponse))
    (messages : List MessageContent) : Except String ContentResponse :=
  match messages with
  | [] => Except.error "no prompt provided"
  | m :: _ =>
    if m.parts = [] then Except.error "no prompt provided"
    else
      match convertParts m.parts with
      | Except.error e => Except.error e
      | Except.ok genaiParts =>
        match callModel [{ parts := genaiParts.map some }] with
        | Except.error e => Except.error ("googleai GenerateContent API error: " ++ e)
        | Except.ok resp =>
          match resp with
          | none => Except.error "googleai GenerateContent API returned empty response"
          | some r =>
            if r.candidates = [] then
              Except.error "googleai GenerateContent API returned empty response"
            else
              Except.ok { choices := [{ content := extractFirstCandidateText r
                                        totalTokensInfo := none }] }

/-- The GoogleAI provider seen as the `llms.Model` that `ProcessImage`
calls: its `GenerateContent` ignores the call options. -/
def googleLLM (callModel : List GenaiContent → Except String (Option GenaiResponse)) :
    List MessageContent → List CallOption → Except String ContentResponse :=
  fun messages _ => googleGenerateContent callModel messages

/-! ## OCR startup wiring (`main.go`) -/

/-- The number of OCR workers `main` starts (`main.go` lines 326-328):
the local constant `numWorkers := 1` passed to `startWorkerPool`. -/
def mainNumWorkers : Nat := 1

/-- The worker count as a function of the process environment: `main` does
not consult the environment for it, so every environment yields
`mainNumWorkers`. -/
def startedWorkerCount (_env : List (String × String)) : Nat :=
  mainNumWorkers

/-- The effective OCR provider type (`main.go` lines 176-179): the
`OCR_PROVIDER` environment value, defaulting to `"llm"` when unset. -/
def effectiveOcrProviderType (ocrProviderEnv : String) : String :=
  if ocrProviderEnv = "" then "llm" else ocrProviderEnv

/-- The OCR-provider initialization decision of `main` (`main.go`
lines 214-222), generic in the provider type `α`: when the provider type
is `"llm"` and no vision LLM provider is configured, the provider is left
nil (`none`) with OCR disabled; otherwise `ocr.NewProvider` (embedded as
the parameter `newProvider`, its code is outside this package's sources)
is consulted, and its failure is fatal to startup. -/
def initOcrProvider {α : Type} (newProvider : Unit → Except String α)
    (ocrProviderEnv visionLlmProvider : String) : Except String (Option α) :=
  let providerType := effectiveOcrProviderType ocrProviderEnv
  if providerType = "llm" ∧ visionLlmProvider = "" then
    Except.ok none
  else
    match newProvider () with
    | Except.error e => Except.error ("Failed to initialize OCR provider: " ++ e)
    | Except.ok p => Except.ok (some p)

/-- `App.isOcrEnabled` (`main.go` lines 384-386): the OCR provider field is
non-nil. -/
def isOcrEnabled {α : Type} (ocrProvider : Option α) : Bool :=
  ocrProvider.isSome

/-! ## Web app re-OCR handler (`ExperimentalOCR.tsx`) -/

/-- The web app's per-page OCR result (`OCRPageResult` in
`ExperimentalOCR.tsx`); `generationInfo` is an optional opaque key-value
record. -/
structure OCRPageResult where
  text : String
  ocrLimitHit : Bool
  generationInfo : Option (List (String × String))
deriving DecidableEq, Repr

/-- The component state that `handleReOcrPage` can read or write
(the `reOcrLoading`/`reOcrErrors` maps, which never feed back into the
results, are omitted). `ocrResult` holds the combined text. -/
structure ExperimentalOcrState where
  perPageResults : List OCRPageResult
  ocrResult : String
  lastFetchedPagesDone : Nat
deriving DecidableEq, Repr

/-- The `setPerPageResults` update of `handleReOcrPage` (lines 155-164):
map over the previous results, replacing the entry at `pageIdx` with a
fresh record built from the response (which carries no `generationInfo`),
leaving every other entry as it was. -/
def applyReOcrResponse (prev : List OCRPageResult) (pageIdx : Nat)
    (text : String) (ocrLimitHit : Bool) : List OCRPageResult :=
  prev.mapIdx (fun idx res =>
    if idx = pageIdx then
      { text := text, ocrLimitHit := ocrLimitHit, generationInfo := none }
    else res)

/-- `handleReOcrPage` (lines 143-177). `response` is the outcome of the
re-OCR POST: `none` when the request failed (only the error map, not
modelled here, changes), `some (text, ocrLimitHit)` on success. When the
page entry does not exist the handler returns before issuing the request. -/
def handleReOcrPage (s : ExperimentalOcrState) (pageIdx : Nat)
    (response : Option (String × Bool)) : ExperimentalOcrState :=
  match s.perPageResults[pageIdx]? with
  | none => s
  | some _ =>
    match response with
    | none => s
    | some (text, hit) =>
      { s with
          perPageResults := applyReOcrResponse s.perPageResults pageIdx text hit
          lastFetchedPagesDone :=
            if pageIdx + 1 > s.lastFetchedPagesDone then pageIdx + 1
            else s.lastFetchedPagesDone }

/-! ## Concrete instances used by witnesses and counterexamples -/

/-- A decoder that succeeds on any input (a well-formed page image). -/
def decodeOkStub : List Nat → Except String ImageInfo :=
  fun _ => Except.ok { width := 100, height := 100 }

/-- A decoder that fails on any input (a corrupt page image). -/
def decodeFailStub : List Nat → Except String ImageInfo :=
  fun _ => Except.error "image: unknown format"

/-- A stand-in for langchaingo's best-effort tokenizer. -/
def countTokensStub : String → String → Int :=
  fun _ text => Int.ofNat text.length

/-- An Ollama provider with a max-tokens-per-page bound of 5. -/
def ollamaProvider5 : LLMProvider :=
  { provider := "ollama", model := "llava", prompt := "Transcribe the page."
    ollamaOcrMaxTokensPerPage := 5, ollamaOcrTemperature := none, ollamaOcrTopK := none }

/-- An Ollama provider with all three generation options configured. -/
def ollamaFullProvider : LLMProvider :=
  { provider := "ollama", model := "llava", prompt := "Transcribe the page."
    ollamaOcrMaxTokensPerPage := 5, ollamaOcrTemperature := some (7 / 10 : Rat)
    ollamaOcrTopK := some 40 }

/-- An OpenAI provider (no Ollama options apply). -/
def openaiProvider : LLMProvider :=
  { provider := "openai", model := "gpt-4o", prompt := "Transcribe the page."
    ollamaOcrMaxTokensPerPage := 0, ollamaOcrTemperature := none, ollamaOcrTopK := none }

/-- A GoogleAI provider (no Ollama options apply). -/
def googleaiProvider : LLMProvider :=
  { provider := "googleai", model := "gemini-2.0-flash", prompt := "Transcribe the page."
    ollamaOcrMaxTokensPerPage := 0, ollamaOcrTemperature := none, ollamaOcrTopK := none }

/-- A choice whose generation info reports 7 total tokens. -/
def reportedChoice : ContentChoice :=
  { content := "hello world", totalTokensInfo := some 7 }

/-- A response carrying `reportedChoice`. -/
def reportedCompletion : ContentResponse := { choices := [reportedChoice] }

/-- A model call that always returns `reportedCompletion`. -/
def genReported : List MessageContent → List CallOption → Except String ContentResponse :=
  fun _ _ => Except.ok reportedCompletion

/-- A choice with no token generation info. -/
def plainChoice : ContentChoice :=
  { content := "recognized text", totalTokensInfo := none }

/-- A response carrying `plainChoice`. -/
def plainCompletion : ContentResponse := { choices := [plainChoice] }

/-- A model call that always returns `plainCompletion`. -/
def genPlain : List MessageContent → List CallOption → Except String ContentResponse :=
  fun _ _ => Except.ok plainCompletion

/-- A backend call yielding a response with an empty candidate list. -/
def noCandidatesCallModel : List GenaiContent → Except String (Option GenaiResponse) :=
  fun _ => Except.ok (some { candidates := [] })

/-- A backend call yielding a response whose single candidate has a nil
`Content` pointer (a candidate with empty content). -/
def nilContentCallModel : List GenaiContent → Except String (Option GenaiResponse) :=
  fun _ => Except.ok (some { candidates := [some { content := none }] })

/-- A two-page web-app state with combined text already assembled. -/
def sampleOcrState : ExperimentalOcrState :=
  { perPageResults :=
      [{ text := "A", ocrLimitHit := false, generationInfo := none },
       { text := "B", ocrLimitHit := true, generationInfo := none }]
    ocrResult := "AB", lastFetchedPagesDone := 2 }

/-- A stand-in `ocr.NewProvider` that would succeed if consulted. -/
def newProviderStub : Unit → Except String Nat := fun _ => Except.ok 0

/-- A first message whose only part is unsupported by the GoogleAI provider. -/
def toolOnlyMessage : MessageContent :=
  { role := ChatMessageType.human, parts := [ContentPart.toolCall] }

/-- A first message with one text part. -/
def textMessage : MessageContent :=
  { role := ChatMessageType.human, parts := [ContentPart.text "hi"] }

/-- A message with no parts. -/
def emptyMessage : MessageContent :=
  { role := ChatMessageType.human, parts := [] }

/-! ## Helper lemmas -/

theorem getElem?_mapIdx_eq {α β : Type} (l : List α) (f : ℕ → α → β) (j : ℕ) :
    (l.mapIdx f)[j]? = (l[j]?).map (f j) := by
  by_cases h : j < l.length
  · have h' : j < (l.mapIdx f).length := by simpa [List.length_mapIdx] using h
    rw [List.getElem?_eq_getElem h', List.getElem?_eq_getElem h]
    have hg := List.get_mapIdx l f j h h'
    simp only [List.get_eq_getElem] at hg
    simp [hg]
  · have h1 : (l.mapIdx f)[j]? = none := by
      rw [List.getElem?_eq_none]
      simpa [List.length_mapIdx] using Nat.le_of_not_lt h
    have h2 : l[j]? = none := by
      rw [List.getElem?_eq_none]
      exact Nat.le_of_not_lt h
    simp [h1, h2]

theorem buildParts_ne_nil (p : LLMProvider) (img : List Nat) :
    buildParts p img ≠ [] := by
  unfold buildParts
  by_cases h : lowerString p.provider = "openai" <;> simp [h]

theorem convertParts_error_of_unsupported (parts : List ContentPart)
    (part : ContentPart) (hmem : part ∈ parts) (hu : supportedPart part = false) :
    ∃ e, convertParts parts = Except.error e := by
  induction parts with
  | nil => cases hmem
  | cons head rest ih =>
    cases head with
    | text s =>
      rcases List.mem_cons.mp hmem with heq | hrest
      · subst heq; simp [supportedPart] at hu
      · obtain ⟨e, he⟩ := ih hrest
        exact ⟨e, by simp [convertParts, he, Except.map]⟩
    | binary m d =>
      rcases List.mem_cons.mp hmem with heq | hrest
      · subst heq; simp [supportedPart] at hu
      · obtain ⟨e, he⟩ := ih hrest
        exact ⟨e, by simp [convertParts, he, Except.map]⟩
    | imageURL u => exact ⟨_, rfl⟩
    | toolCall => exact ⟨_, rfl⟩
    | toolCallResponse => exact ⟨_, rfl⟩

theorem googleGenerateContent_req_convert_error
    (callModel : List GenaiContent → Except String (Option GenaiResponse))
    (p : LLMProvider) (img : List Nat) (e : String)
    (hcp : convertParts (buildParts p img) = Except.error e) :
    googleGenerateContent callModel (requestMessages p img) = Except.error e := by
  unfold googleGenerateContent requestMessages
  dsimp only
  rw [if_neg (buildParts_ne_nil p img), hcp]

theorem googleGenerateContent_req_ok
    (callModel : List GenaiContent → Except String (Option GenaiResponse))
    (p : LLMProvider) (img : List Nat) (gps : List GenaiPart)
    (hcp : convertParts (buildParts p img) = Except.ok gps) :
    googleGenerateContent callModel (requestMessages p img) =
      (match callModel [{ parts := gps.map some }] with
       | Except.error e =>
         Except.error ("googleai GenerateContent API error: " ++ e)
       | Except.ok none =>
         Except.error "googleai GenerateContent API returned empty response"
       | Except.ok (some r) =>
         if r.candidates = [] then
           Except.error "googleai GenerateContent API returned empty response"
         else
           Except.ok { choices := [{ content := extractFirstCandidateText r
                                     totalTokensInfo := none }] }) := by
  unfold googleGenerateContent requestMessages
  dsimp only
  rw [if_neg (buildParts_ne_nil p img), hcp]
  dsimp only
  cases hc : callModel [{ parts := gps.map some }] with
  | error e => rfl
  | ok resp => cases resp <;> rfl

/-! ## Claims -/

/-- C5: for every `ProcessImage` call, the page image is encoded according
to the backend — the OpenAI backend (text-safe payloads) receives a
base64-encoded `data:` URI as an image-URL part, every other backend
receives the raw image bytes as a binary content part — and in both cases
the single-turn request also carries the fixed OCR instruction prompt as
a text part. -/
theorem requestMessages_image_encoding (p : LLMProvider) (img : List Nat) :
    requestMessages p img =
      [{ role := ChatMessageType.human
         parts :=
           if lowerString p.provider = "openai" then
             [ContentPart.imageURL ("data:image/jpeg;base64," ++ base64Encode img),
              ContentPart.text p.prompt]
           else
             [ContentPart.binary "image/jpeg" img, ContentPart.text p.prompt] }] := by
  unfold requestMessages buildParts
  by_cases h : lowerString p.provider = "openai" <;> simp [h]

/-- C7: for every input whose image bytes are corrupt (the decoder fails),
`ProcessImage` fails with an error wrapping the decode failure, returns no
result, and performs no internal retry — zero model calls are issued. -/
theorem processImage_decode_failure_no_retry
    (decode : List Nat → Except String ImageInfo)
    (gen : List MessageContent → List CallOption → Except String ContentResponse)
    (ct : String → String → Int) (p : LLMProvider) (img : List Nat) (e : String)
    (hdec : decode img = Except.error e) :
    processImage decode gen ct p img =
      (Except.error ("error decoding image: " ++ e), 0) := by
  unfold processImage
  rw [hdec]

/-- Witness for C7 at a concrete corrupt image. -/
theorem processImage_decode_failure_no_retry_witness :
    decodeFailStub [0, 1, 2] = Except.error "image: unknown format" ∧
    processImage decodeFailStub genPlain countTokensStub openaiProvider [0, 1, 2] =
      (Except.error ("error decoding image: " ++ "image: unknown format"), 0) :=
  ⟨rfl, processImage_decode_failure_no_retry decodeFailStub genPlain countTokensStub
    openaiProvider [0, 1, 2] "image: unknown format" rfl⟩

/-- C8 counterexample: the worker count main starts is not configurable —
an environment requesting five workers and the empty environment both
yield a single worker. -/
theorem workerCount_ignores_configuration :
    startedWorkerCount [("OCR_WORKERS", "5")] = 1 ∧ startedWorkerCount [] = 1 :=
  ⟨rfl, rfl⟩

/-- C8 amended: the OCR worker pool is started with a fixed number of
background executors, and that number is the constant one regardless of
the process environment (it is hardcoded, not configurable). -/
theorem workerCount_constant_one (env : List (String × String)) :
    startedWorkerCount env = mainNumWorkers ∧ mainNumWorkers = 1 :=
  ⟨rfl, rfl⟩

/-- C9: when the OCR provider type is `"llm"` (also the default for an
unset `OCR_PROVIDER`) and no `VISION_LLM_PROVIDER` is configured, the OCR
initialization succeeds with the provider left nil — `ocr.NewProvider`
is never consulted, no configuration error is raised — and
`App.isOcrEnabled` then reports OCR as disabled. -/
theorem ocr_disabled_when_llm_without_vision_provider {α : Type}
    (newProvider : Unit → Except String α) (ocrProviderEnv visionLlmProvider : String)
    (henv : ocrProviderEnv = "" ∨ ocrProviderEnv = "llm")
    (hvis : visionLlmProvider = "") :
    initOcrProvider newProvider ocrProviderEnv visionLlmProvider = Except.ok none ∧
    isOcrEnabled (none : Option α) = false := by
  refine ⟨?_, rfl⟩
  unfold initOcrProvider effectiveOcrProviderType
  rcases henv with h | h <;> simp [h, hvis]

/-- Witness for C9 with `OCR_PROVIDER` unset and a provider constructor
that would succeed if it were (wrongly) consulted. -/
theorem ocr_disabled_when_llm_without_vision_provider_witness :
    ("" = "" ∨ "" = "llm") ∧
    (initOcrProvider newProviderStub "" "" = Except.ok none ∧
     isOcrEnabled (none : Option Nat) = false) :=
  ⟨Or.inl rfl,
   ocr_disabled_when_llm_without_vision_provider newProviderStub "" "" (Or.inl rfl) rfl⟩

/-- C3: re-OCR of page `i` in the web app changes only the entry at index
`i` of `perPageResults`: whatever the request's outcome, every other index
of `perPageResults` and the combined text (`ocrResult`) are identical
before and after the handler runs. -/
theorem handleReOcrPage_frame (s : ExperimentalOcrState) (pageIdx : Nat)
    (response : Option (String × Bool)) (j : Nat) (hj : j ≠ pageIdx) :
    (handleReOcrPage s pageIdx response).perPageResults[j]? = s.perPageResults[j]? ∧
    (handleReOcrPage s pageIdx response).ocrResult = s.ocrResult := by
  unfold handleReOcrPage
  cases hpage : s.perPageResults[pageIdx]? with
  | none => exact ⟨rfl, rfl⟩
  | some res =>
    cases response with
    | none => exact ⟨rfl, rfl⟩
    | some tr =>
      refine ⟨?_, rfl⟩
      simp only [applyReOcrResponse, getElem?_mapIdx_eq]
      cases s.perPageResults[j]? with
      | none => rfl
      | some x => simp [hj]

/-- Witness for C3: re-OCR of page 1 of the sample state leaves index 0
and the combined text unchanged. -/
theorem handleReOcrPage_frame_witness :
    (0 : Nat) ≠ 1 ∧
    ((handleReOcrPage sampleOcrState 1 (some ("B2", false))).perPageResults[0]? =
       sampleOcrState.perPageResults[0]? ∧
     (handleReOcrPage sampleOcrState 1 (some ("B2", false))).ocrResult =
       sampleOcrState.ocrResult) :=
  ⟨by decide, handleReOcrPage_frame sampleOcrState 1 (some ("B2", false)) 0 (by decide)⟩

/-- C4: for every configured provider other than Ollama-with-a-positive-
max-tokens-per-page bound, every successful `ProcessImage` result has
`ocrLimitHit = false`. -/
theorem processImage_limit_flag_false_without_ollama_bound
    (decode : List Nat → Except String ImageInfo)
    (gen : List MessageContent → List CallOption → Except String ContentResponse)
    (ct : String → String → Int) (p : LLMProvider) (img : List Nat)
    (info : ImageInfo) (completion : ContentResponse)
    (choice : ContentChoice) (rest : List ContentChoice)
    (hno : ¬(lowerString p.provider = "ollama" ∧ p.ollamaOcrMaxTokensPerPage > 0))
    (hdec : decode img = Except.ok info)
    (hgen : gen (requestMessages p img) (buildCallOpts p) = Except.ok completion)
    (hch : completion.choices = choice :: rest) :
    processImage decode gen ct p img =
      (Except.ok
        { text := choice.content
          metadata := [("provider", p.provider), ("model", p.model)]
          ocrLimitHit := false
          generationInfoTotalTokens := choice.totalTokensInfo }, 1) := by
  unfold processImage
  rw [hdec, hgen]
  dsimp only
  rw [hch]
  simp [ocrLimitHitFlag, hno]

/-- Witness for C4 at a concrete OpenAI provider. -/
theorem processImage_limit_flag_false_without_ollama_bound_witness :
    ¬(lowerString openaiProvider.provider = "ollama" ∧
       openaiProvider.ollamaOcrMaxTokensPerPage > 0) ∧
    processImage decodeOkStub genPlain countTokensStub openaiProvider [9, 9] =
      (Except.ok
        { text := plainChoice.content
          metadata := [("provider", openaiProvider.provider),
                       ("model", openaiProvider.model)]
          ocrLimitHit := false
          generationInfoTotalTokens := plainChoice.totalTokensInfo }, 1) :=
  ⟨by decide,
   processImage_limit_flag_false_without_ollama_bound decodeOkStub genPlain
     countTokensStub openaiProvider [9, 9] { width := 100, height := 100 }
     plainCompletion plainChoice [] (by decide) rfl rfl rfl⟩

/-- C6: the optional generation parameters are attached to the model
request only when explicitly configured and only for the Ollama backend:
a max-tokens option is present iff the provider is Ollama and the bound is
positive, a temperature option iff the provider is Ollama and a
temperature is set, a top-K option iff the provider is Ollama and a top-K
is set; each attached option carries exactly the configured value, and a
non-Ollama provider gets no options at all. -/
theorem buildCallOpts_only_configured (p : LLMProvider) :
    ((∃ n, CallOption.withMaxTokens n ∈ buildCallOpts p) ↔
      (lowerString p.provider = "ollama" ∧ p.ollamaOcrMaxTokensPerPage > 0)) ∧
    (∀ n, CallOption.withMaxTokens n ∈ buildCallOpts p →
      n = p.ollamaOcrMaxTokensPerPage) ∧
    ((∃ t, CallOption.withTemperature t ∈ buildCallOpts p) ↔
      (lowerString p.provider = "ollama" ∧ p.ollamaOcrTemperature.isSome)) ∧
    (∀ t, CallOption.withTemperature t ∈ buildCallOpts p →
      p.ollamaOcrTemperature = some t) ∧
    ((∃ k, CallOption.withTopK k ∈ buildCallOpts p) ↔
      (lowerString p.provider = "ollama" ∧ p.ollamaOcrTopK.isSome)) ∧
    (∀ k, CallOption.withTopK k ∈ buildCallOpts p → p.ollamaOcrTopK = some k) ∧
    (lowerString p.provider ≠ "ollama" → buildCallOpts p = []) := by
  unfold buildCallOpts
  by_cases holl : lowerString p.provider = "ollama"
  · by_cases hmax : p.ollamaOcrMaxTokensPerPage > 0 <;>
      cases htemp : p.ollamaOcrTemperature <;>
      cases htopk : p.ollamaOcrTopK <;>
      simp_all
  · simp [holl]

/-- Witness for C6 at a fully-configured Ollama provider. -/
theorem buildCallOpts_only_configured_witness :
    ((∃ n, CallOption.withMaxTokens n ∈ buildCallOpts ollamaFullProvider) ↔
      (lowerString ollamaFullProvider.provider = "ollama" ∧
        ollamaFullProvider.ollamaOcrMaxTokensPerPage > 0)) ∧
    (∀ n, CallOption.withMaxTokens n ∈ buildCallOpts ollamaFullProvider →
      n = ollamaFullProvider.ollamaOcrMaxTokensPerPage) ∧
    ((∃ t, CallOption.withTemperature t ∈ buildCallOpts ollamaFullProvider) ↔
      (lowerString ollamaFullProvider.provider = "ollama" ∧
        ollamaFullProvider.ollamaOcrTemperature.isSome)) ∧
    (∀ t, CallOption.withTemperature t ∈ buildCallOpts ollamaFullProvider →
      ollamaFullProvider.ollamaOcrTemperature = some t) ∧
    ((∃ k, CallOption.withTopK k ∈ buildCallOpts ollamaFullProvider) ↔
      (lowerString ollamaFullProvider.provider = "ollama" ∧
        ollamaFullProvider.ollamaOcrTopK.isSome)) ∧
    (∀ k, CallOption.withTopK k ∈ buildCallOpts ollamaFullProvider →
      ollamaFullProvider.ollamaOcrTopK = some k) ∧
    (lowerString ollamaFullProvider.provider ≠ "ollama" →
      buildCallOpts ollamaFullProvider = []) :=
  buildCallOpts_only_configured ollamaFullProvider

/-- C1: for every successful `ProcessImage` call made when a
maximum-output-token bound is configured (the Ollama provider with a
positive max-tokens-per-page setting), the token count used for limit
detection is the backend-reported token usage from the response's
generation info when available, and otherwise the count computed from the
returned text by the model's tokenizer; the returned result's
`ocrLimitHit` is true if and only if that token count is greater than or
equal to the configured bound. -/
theorem processImage_token_limit_detection
    (decode : List Nat → Except String ImageInfo)
    (gen : List MessageContent → List CallOption → Except String ContentResponse)
    (ct : String → String → Int) (p : LLMProvider) (img : List Nat)
    (info : ImageInfo) (completion : ContentResponse)
    (choice : ContentChoice) (rest : List ContentChoice)
    (holl : lowerString p.provider = "ollama")
    (hmax : p.ollamaOcrMaxTokensPerPage > 0)
    (hdec : decode img = Except.ok info)
    (hgen : gen (requestMessages p img) (buildCallOpts p) = Except.ok completion)
    (hch : completion.choices = choice :: rest)
    (hrep : ∀ v, choice.totalTokensInfo = some v → 0 ≤ v) :
    ∃ r, processImage decode gen ct p img = (Except.ok r, 1) ∧
      (r.ocrLimitHit = true ↔
        p.ollamaOcrMaxTokensPerPage ≤ ocrTokenCount ct p choice) ∧
      ocrTokenCount ct p choice =
        (match choice.totalTokensInfo with
         | some v => v
         | none => ct p.model choice.content) := by
  refine ⟨{ text := choice.content
            metadata := [("provider", p.provider), ("model", p.model)]
            ocrLimitHit := ocrLimitHitFlag ct p choice
            generationInfoTotalTokens := choice.totalTokensInfo }, ?_, ?_, ?_⟩
  · unfold processImage
    rw [hdec, hgen]
    dsimp only
    rw [hch]
  · simp [ocrLimitHitFlag, holl, hmax, ge_iff_le]
  · unfold ocrTokenCount
    cases htok : choice.totalTokensInfo with
    | none => simp
    | some v =>
      have hv := hrep v htok
      simp [not_lt.mpr hv]

/-- Witness for C1: an Ollama provider with bound 5 and a backend-reported
usage of 7, which is used for detection and trips the limit flag. -/
theorem processImage_token_limit_detection_witness :
    (lowerString ollamaProvider5.provider = "ollama" ∧
     ollamaProvider5.ollamaOcrMaxTokensPerPage > 0 ∧
     reportedChoice.totalTokensInfo = some 7) ∧
    (∃ r, processImage decodeOkStub genReported countTokensStub
        ollamaProvider5 [3, 1, 4] = (Except.ok r, 1) ∧
      (r.ocrLimitHit = true ↔
        ollamaProvider5.ollamaOcrMaxTokensPerPage ≤
          ocrTokenCount countTokensStub ollamaProvider5 reportedChoice) ∧
      ocrTokenCount countTokensStub ollamaProvider5 reportedChoice =
        (match reportedChoice.totalTokensInfo with
         | some v => v
         | none => countTokensStub ollamaProvider5.model reportedChoice.content)) :=
  ⟨⟨by decide, by decide, rfl⟩,
   processImage_token_limit_detection decodeOkStub genReported countTokensStub
     ollamaProvider5 [3, 1, 4] { width := 100, height := 100 } reportedCompletion
     reportedChoice [] (by decide) (by decide) rfl rfl rfl
     (fun v hv => by simp [reportedChoice] at hv; omega)⟩

/-- C2 counterexample: a backend response whose (single) first candidate
has empty content does NOT yield a `ProviderError` — `ProcessImage`
succeeds with zero-length text. -/
theorem googleai_empty_content_zero_length_success :
    processImage decodeOkStub (googleLLM nilContentCallModel) countTokensStub
        googleaiProvider [1, 2, 3] =
      (Except.ok
        { text := ""
          metadata := [("provider", "googleai"), ("model", "gemini-2.0-flash")]
          ocrLimitHit := false
          generationInfoTotalTokens := none }, 1) := by
  rfl

/-- C2 amended: a provider response that contains zero candidates (or a
nil response object) makes `ProcessImage` fail with a `ProviderError`;
but a response whose first candidate's content is empty or missing yields
a successful result with zero-length text, not an error. -/
theorem googleai_empty_response_provider_error :
    (∀ (callModel : List GenaiContent → Except String (Option GenaiResponse))
       (decode : List Nat → Except String ImageInfo) (ct : String → String → Int)
       (p : LLMProvider) (img : List Nat) (info : ImageInfo),
       decode img = Except.ok info →
       (∀ contents, callModel contents = Except.ok none ∨
          ∃ r, callModel contents = Except.ok (some r) ∧ r.candidates = []) →
       ∃ e, processImage decode (googleLLM callModel) ct p img =
         (Except.error e, 1)) ∧
    (∀ (callModel : List GenaiContent → Except String (Option GenaiResponse))
       (decode : List Nat → Except String ImageInfo) (ct : String → String → Int)
       (p : LLMProvider) (img : List Nat) (info : ImageInfo) (resp : GenaiResponse),
       lowerString p.provider = "googleai" →
       decode img = Except.ok info →
       (∀ contents, callModel contents = Except.ok (some resp)) →
       resp.candidates ≠ [] →
       extractFirstCandidateText resp = "" →
       processImage decode (googleLLM callModel) ct p img =
         (Except.ok
           { text := ""
             metadata := [("provider", p.provider), ("model", p.model)]
             ocrLimitHit := false
             generationInfoTotalTokens := none }, 1)) := by
  constructor
  · intro callModel decode ct p img info hdec hresp
    unfold processImage
    rw [hdec]
    dsimp only
    simp only [googleLLM]
    cases hcp : convertParts (buildParts p img) with
    | error e =>
      rw [googleGenerateContent_req_convert_error callModel p img e hcp]
      exact ⟨"error getting response from LLM: " ++ e, rfl⟩
    | ok gps =>
      rw [googleGenerateContent_req_ok callModel p img gps hcp]
      rcases hresp [{ parts := gps.map some }] with hnone | ⟨r, hr, hrc⟩
      · rw [hnone]
        exact ⟨"error getting response from LLM: " ++
          "googleai GenerateContent API returned empty response", rfl⟩
      · rw [hr]
        dsimp only
        rw [if_pos hrc]
        exact ⟨"error getting response from LLM: " ++
          "googleai GenerateContent API returned empty response", rfl⟩
  · intro callModel decode ct p img info resp hlow hdec hcm hne hempty
    have hb : buildParts p img =
        [ContentPart.binary "image/jpeg" img, ContentPart.text p.prompt] := by
      unfold buildParts
      rw [hlow]
      simp
    have hcp : convertParts (buildParts p img) =
        Except.ok
          [{ text := "", inlineData := some { mimeType := "image/jpeg", data := img } },
           { text := p.prompt, inlineData := none }] := by
      rw [hb]; rfl
    unfold processImage
    rw [hdec]
    dsimp only
    simp only [googleLLM]
    rw [googleGenerateContent_req_ok callModel p img _ hcp, hcm]
    dsimp only
    rw [if_neg hne, hempty]
    dsimp only
    have hfl : ocrLimitHitFlag ct p { content := "", totalTokensInfo := none } = false := by
      unfold ocrLimitHitFlag
      rw [hlow]
      simp
    rw [hfl]

/-- Witness for C2's amended theorem: both conjuncts at concrete inputs —
a backend returning a candidate-free response makes `ProcessImage` error,
and one returning a single nil-content candidate makes it succeed with
empty text. -/
theorem googleai_empty_response_provider_error_witness :
    (∃ e, processImage decodeOkStub (googleLLM noCandidatesCallModel)
        countTokensStub googleaiProvider [1, 2, 3] = (Except.error e, 1)) ∧
    processImage decodeOkStub (googleLLM nilContentCallModel)
        countTokensStub googleaiProvider [1, 2, 3] =
      (Except.ok
        { text := ""
          metadata := [("provider", googleaiProvider.provider),
                       ("model", googleaiProvider.model)]
          ocrLimitHit := false
          generationInfoTotalTokens := none }, 1) :=
  ⟨googleai_empty_response_provider_error.1 noCandidatesCallModel decodeOkStub
     countTokensStub googleaiProvider [1, 2, 3] { width := 100, height := 100 } rfl
     (fun _ => Or.inr ⟨{ candidates := [] }, rfl, rfl⟩),
   googleai_empty_response_provider_error.2 nilContentCallModel decodeOkStub
     countTokensStub googleaiProvider [1, 2, 3] { width := 100, height := 100 }
     { candidates := [some { content := none }] } (by decide) rfl (fun _ => rfl)
     (by decide) rfl⟩

/-- C10: `GoogleAIProvider.GenerateContent` errors when the message list
is empty or the first message has no content parts, errors when the first
message contains a part that is neither text nor binary, and builds the
request from the parts of the first message only — subsequent messages
never influence the outcome. -/
theorem googleGenerateContent_first_message_only
    (callModel : List GenaiContent → Except String (Option GenaiResponse)) :
    (googleGenerateContent callModel [] = Except.error "no prompt provided") ∧
    (∀ (m : MessageContent) (rest : List MessageContent), m.parts = [] →
      googleGenerateContent callModel (m :: rest) =
        Except.error "no prompt provided") ∧
    (∀ (m : MessageContent) (rest : List MessageContent) (part : ContentPart),
      part ∈ m.parts → supportedPart part = false →
      ∃ e, googleGenerateContent callModel (m :: rest) = Except.error e) ∧
    (∀ (m : MessageContent) (rest rest' : List MessageContent),
      googleGenerateContent callModel (m :: rest) =
        googleGenerateContent callModel (m :: rest')) := by
  refine ⟨rfl, ?_, ?_, ?_⟩
  · intro m rest hm
    unfold googleGenerateContent
    dsimp only
    rw [if_pos hm]
  · intro m rest part hmem hu
    obtain ⟨e, he⟩ := convertParts_error_of_unsupported m.parts part hmem hu
    by_cases hm : m.parts = []
    · exact ⟨"no prompt provided",
        by unfold googleGenerateContent; dsimp only; rw [if_pos hm]⟩
    · refine ⟨e, ?_⟩
      unfold googleGenerateContent
      dsimp only
      rw [if_neg hm, he]
  · intro m rest rest'
    rfl

/-- Witness for C10: all four conjuncts at concrete messages. -/
theorem googleGenerateContent_first_message_only_witness :
    (googleGenerateContent noCandidatesCallModel [] =
      Except.error "no prompt provided") ∧
    (googleGenerateContent noCandidatesCallModel [emptyMessage, textMessage] =
      Except.error "no prompt provided") ∧
    (∃ e, googleGenerateContent noCandidatesCallModel [toolOnlyMessage] =
      Except.error e) ∧
    (googleGenerateContent noCandidatesCallModel [textMessage, textMessage] =
      googleGenerateContent noCandidatesCallModel [textMessage, emptyMessage]) :=
  ⟨(googleGenerateContent_first_message_only noCandidatesCallModel).1,
   (googleGenerateContent_first_message_only noCandidatesCallModel).2.1
     emptyMessage [textMessage] rfl,
   (googleGenerateContent_first_message_only noCandidatesCallModel).2.2.1
     toolOnlyMessage [] ContentPart.toolCall (by simp [toolOnlyMessage]) rfl,
   (googleGenerateContent_first_message_only noCandidatesCallModel).2.2.2
     textMessage [textMessage] [emptyMessage]⟩

end PaperlessGPT
